import Mathlib

/-!
Shallow embedding of the tenant-scoped Docker Compose deployment core of
`docker_compose_manager`, together with theorems settling the claims of the spec.

Embedded modules:
- `compose/deployment/manager.py` (`validate_compose_file`, `stop_deployment`,
  `remove_deployment`)
- `compose/orchestration/orchestrator.py` (`deploy_multiple`, `health_check_all`)
- `multitenant/models/tenant.py` (`Tenant`, `Tenant.from_dict`)
- `multitenant/managers/tenant_manager.py` (`create_tenant`, `get_tenant`,
  `update_tenant`)
- a quota-enforcement model built from the spec (the repository contains no
  quota enforcer; see the `SpecModel` namespace).

Conventions: Python dicts with string keys are association lists with unique
keys (`dict_get` / `dict_insert`); `datetime.utcnow()` is an explicit `now : Nat`
parameter; generated UUIDs are explicit `fresh_id : String` parameters;
YAML mappings are structures with `Option` fields (`none` = key absent).
-/

namespace DCM

/-! ### Manifest validation — `compose/deployment/manager.py`, `validate_compose_file` -/

/-- Parsed compose file content, as far as `validate_compose_file` inspects it:
the optional `version` key and the optional `services` mapping (modelled by its
list of service names; `none` means the key is absent, `some []` means the key
is present but the mapping is empty). -/
structure ComposeData where
  version : Option String
  services : Option (List String)
deriving DecidableEq

/-- Embeds the Python string method `s.startswith(pre)` as a character-list
prefix test. -/
def pyStartsWith (s pre : String) : Bool :=
  pre.data.isPrefixOf s.data

/-- The two `ValueError`s `validate_compose_file` can raise (the
`FileNotFoundError` path is outside the parsed-content model). -/
inductive ValidationError where
  | unsupportedVersion (found : String)
  | missingServices
deriving DecidableEq

/-- Embeds `DeploymentManager.validate_compose_file`, line for line on the parsed
content: read the version key with default "3"; reject unless
the version string starts with "3"; reject if the services key is absent;
otherwise return `True`. -/
def validate_compose_file (d : ComposeData) : Except ValidationError Bool :=
  let version := d.version.getD "3"
  if ¬ pyStartsWith version "3" then
    .error (.unsupportedVersion version)
  else if d.services = none then
    .error .missingServices
  else
    .ok true

/-! ### Teardown — `stop_deployment` / `remove_deployment`

The runtime state is the list of containers the Docker client sees; each
carries its `com.docker.compose.project` label and a running flag.
Listing with a label filter for project p
returns the running containers labelled `p`; with `all=True` it returns all of
them. -/

structure Container where
  cid : Nat
  project : String
  running : Bool
deriving DecidableEq

/-- Effect of the loop in `stop_deployment` on one container: containers that
are running and labelled with the project get `container.stop()`; the rest are
untouched. -/
def stopMatching (p : String) (c : Container) : Container :=
  if c.project = p ∧ c.running then { c with running := false } else c

/-- Embeds `DeploymentManager.stop_deployment`: stop every running container labelled
with the project, `return True`. -/
def stop_deployment (p : String) (s : List Container) : List Container × Bool :=
  (s.map (stopMatching p), true)

/-- Embeds `DeploymentManager.remove_deployment`: first `self.stop_deployment(p)`,
then `container.remove()` on every container (running or not) labelled with
the project, `return True`. -/
def remove_deployment (p : String) (s : List Container) : List Container × Bool :=
  let s1 := (stop_deployment p s).1
  (s1.filter (fun c => ¬ c.project = p), true)

/-! ### Orchestrator — `compose/orchestration/orchestrator.py` -/

/-- A deployment configuration dict, as far as the orchestrator reads it:
it reads only the project_name key. -/
structure DeploySpec where
  project_name : Option String
deriving DecidableEq

/-- The result dict `_deploy_single` builds. -/
structure DeployResult where
  project_name : Option String
  status : String
deriving DecidableEq

/-- Embeds `Orchestrator._deploy_single`: returns
a dict holding the project_name of the input spec and the status string
"success". -/
def deploy_single (d : DeploySpec) : DeployResult :=
  { project_name := d.project_name, status := "success" }

/-- Embeds `asyncio.gather(*tasks, return_exceptions=True)` over one task per input,
submitted in input order: each unit either returns a value or raises, and a
raise is captured as the entry of that unit instead of aborting the batch. `gather`
returns the per-task outcomes in submission order. -/
def gather_return_exceptions (w : α → Except ε β) (xs : List α) : List (Except ε β) :=
  xs.map w

/-- Embeds `Orchestrator.deploy_multiple`: one executor task per input running
`_deploy_single` (which cannot raise), gathered with `return_exceptions=True`. -/
def deploy_multiple (ds : List DeploySpec) : List (Except Unit DeployResult) :=
  gather_return_exceptions (fun d => .ok (deploy_single d)) ds

/-- Embeds `Orchestrator._health_check_single`: it returns `True`. -/
def health_check_single (_ : String) : Bool :=
  true

/-- Python association-list dict assignment `m[k] = v`: replace the value at
the (unique) existing key, else append. -/
def dict_insert (m : List (String × β)) (k : String) (v : β) : List (String × β) :=
  match m with
  | [] => [(k, v)]
  | p :: rest => if p.1 = k then (k, v) :: rest else p :: dict_insert rest k v

/-- Python dict `m.get(k)`. -/
def dict_get (m : List (String × β)) (k : String) : Option β :=
  match m with
  | [] => none
  | p :: rest => if p.1 = k then some p.2 else dict_get rest k

/-- Embeds `dict(pairs)`: insert the pairs left to right (later values for a repeated
key overwrite the earlier entry in place). -/
def dict_of_pairs (ps : List (String × β)) : List (String × β) :=
  ps.foldl (fun m p => dict_insert m p.1 p.2) []

/-- Embeds `Orchestrator.health_check_all`: one task per project name running
`_health_check_single`, then `dict(zip(project_names, results))`. -/
def health_check_all (names : List String) : List (String × Bool) :=
  dict_of_pairs (names.zip (names.map health_check_single))

/-! ### Tenant model — `multitenant/models/tenant.py`

`datetime` fields are `Nat` timestamps; the generated `uuid4` is an explicit
parameter. `max_cpu` (a nullable Python float) and `max_memory` are only ever
stored and copied by the embedded code, never computed with, so they are
carried as `Option Int`. The free-form `config`/`metadata` dicts are carried
as association lists. -/

structure Tenant where
  id : String
  name : String
  slug : String
  description : String
  active : Bool
  created_at : Nat
  updated_at : Nat
  max_deployments : Int
  max_containers : Int
  max_cpu : Option Int
  max_memory : Option Int
  config : List (String × String)
  metadata : List (String × String)
deriving DecidableEq

/-- The `Tenant` dataclass constructor `Tenant(name=…, slug=…, description=…)`
with every other field at its declared default: `id` from `uuid4` (the
`fresh_id` parameter), both timestamps from `datetime.utcnow()` (the `now`
parameter), `active=True`, `max_deployments=10`, `max_containers=50`,
`max_cpu=None`, `max_memory=None`, empty `config`/`metadata`. -/
def Tenant.mkDefault (fresh_id : String) (now : Nat)
    (name slug description : String) : Tenant :=
  { id := fresh_id, name := name, slug := slug, description := description
    active := true, created_at := now, updated_at := now
    max_deployments := 10, max_containers := 50
    max_cpu := none, max_memory := none, config := [], metadata := [] }

/-- One keyword argument (or one key of a stored dict): a key naming a
`Tenant` attribute together with a value of the type of that attribute, or an
unknown key, for which `hasattr(tenant, key)` is false. -/
inductive KwArg where
  | id (v : String)
  | name (v : String)
  | slug (v : String)
  | description (v : String)
  | active (v : Bool)
  | created_at (v : Nat)
  | updated_at (v : Nat)
  | max_deployments (v : Int)
  | max_containers (v : Int)
  | max_cpu (v : Option Int)
  | max_memory (v : Option Int)
  | config (v : List (String × String))
  | metadata (v : List (String × String))
  | unknown (key : String)
deriving DecidableEq

/-- Embeds the update step: when `hasattr(tenant, key)` holds, `setattr` assigns the value — every declared
attribute is assignable (including `slug` and `id`); an unknown key is
silently skipped. -/
def setAttr (t : Tenant) : KwArg → Tenant
  | .id v => { t with id := v }
  | .name v => { t with name := v }
  | .slug v => { t with slug := v }
  | .description v => { t with description := v }
  | .active v => { t with active := v }
  | .created_at v => { t with created_at := v }
  | .updated_at v => { t with updated_at := v }
  | .max_deployments v => { t with max_deployments := v }
  | .max_containers v => { t with max_containers := v }
  | .max_cpu v => { t with max_cpu := v }
  | .max_memory v => { t with max_memory := v }
  | .config v => { t with config := v }
  | .metadata v => { t with metadata := v }
  | .unknown _ => t

/-- Embeds `Tenant.from_dict`: start from `cls()` (all defaults) and `setattr` each
known key of the stored dict onto it — timestamp strings are parsed back, and
nothing checks them against each other. -/
def Tenant.from_dict (fresh_id : String) (now : Nat) (data : List KwArg) : Tenant :=
  data.foldl setAttr (Tenant.mkDefault fresh_id now "" "" "")

/-- True exactly on a `created_at` keyword. -/
def KwArg.setsCreatedAt : KwArg → Bool
  | .created_at _ => true
  | _ => false

/-- True exactly on an `updated_at` keyword. -/
def KwArg.setsUpdatedAt : KwArg → Bool
  | .updated_at _ => true
  | _ => false

/-- True exactly on an unknown key, i.e. one failing `hasattr`. -/
def KwArg.isUnknownKey : KwArg → Bool
  | .unknown _ => true
  | _ => false

/-! ### Tenant manager — `multitenant/managers/tenant_manager.py`

`self._tenants` is the in-memory dict keyed by slug; the `*.json` files under
`storage_path` are the `store` dict keyed by the slug in the filename.
`_save_tenant` writes the file named after the current (possibly reassigned)
`slug` attribute. -/

structure TenantManagerState where
  tenants : List (String × Tenant)
  store : List (String × Tenant)
deriving DecidableEq

/-- The `ValueError` raised by `create_tenant` on a duplicate slug. -/
inductive TenantError where
  | duplicateTenant
deriving DecidableEq

/-- Embeds `TenantManager.create_tenant`. Reachability note: the Python
signature names `name`, `slug` and `description`, so in a well-formed call
the kwargs list never contains those keys (a duplicate keyword raises a
TypeError at the call site); theorems quantify over all kwarg lists, a
superset of the reachable ones. Body: raise if the slug is already a key of
`self._tenants` (nothing mutated on that path); otherwise build the tenant,
apply the `hasattr`-guarded kwargs, install it under the **argument** slug in
memory, save it to the file named after the own `slug` attribute of the tenant,
and return it. The returned pair is (state after the call, outcome). -/
def create_tenant (st : TenantManagerState) (now : Nat) (fresh_id : String)
    (name slug : String) (description : String) (kwargs : List KwArg) :
    TenantManagerState × Except TenantError Tenant :=
  if (dict_get st.tenants slug).isSome then
    (st, .error .duplicateTenant)
  else
    let t := kwargs.foldl setAttr (Tenant.mkDefault fresh_id now name slug description)
    ({ tenants := dict_insert st.tenants slug t
       store := dict_insert st.store t.slug t }, .ok t)

/-- Embeds `TenantManager.get_tenant`: it returns `self._tenants.get(slug)`. -/
def get_tenant (st : TenantManagerState) (slug : String) : Option Tenant :=
  dict_get st.tenants slug

/-- Embeds `TenantManager.update_tenant`: it returns `None` when the slug is absent; otherwise
`setattr` every kwarg that passes `hasattr` onto the stored record, stamp
`updated_at = datetime.utcnow()`, save under the (possibly updated)
`slug` attribute, and return the record. Reachability note: the Python
signature is `update_tenant(self, slug, **kwargs)`, so a slug keyword binds
to the named parameter and a call supplying slug both positionally and as a
keyword raises a TypeError (multiple values) before the body runs — in a
well-formed call the kwargs list never contains `KwArg.slug` (that
constructor stays in the shared kwarg type for `Tenant.from_dict`, whose
data dict may hold a slug key). The `id` key is not a parameter name and
does reach the loop. -/
def update_tenant (st : TenantManagerState) (now : Nat) (slug : String)
    (kwargs : List KwArg) : TenantManagerState × Option Tenant :=
  match dict_get st.tenants slug with
  | none => (st, none)
  | some t =>
    let t1 := kwargs.foldl setAttr t
    let t2 := { t1 with updated_at := now }
    ({ tenants := dict_insert st.tenants slug t2
       store := dict_insert st.store t2.slug t2 }, some t2)

/-- Sample tenant record, as `create_tenant` would build it at time `0` with
the slug acme and no extra kwargs; used for concrete witnesses. -/
def sampleTenant : Tenant :=
  Tenant.mkDefault "id-1" 0 "Acme" "acme" ""

/-- Sample registry state holding `sampleTenant` under the slug acme, in
memory and on disk. -/
def sampleState : TenantManagerState :=
  { tenants := [("acme", sampleTenant)], store := [("acme", sampleTenant)] }

/-! ### Quota-enforced deployment — `SpecModel`

In the repository, `deploy_compose` is a stub with no tenant, quota, or state
tracking; the Quota Enforcer (spec §4.3) and Deployment Tracker state machine
(spec §4.4) exist only in the spec. This namespace models them from the
wording of the spec so the quota scenarios can be settled. -/

namespace SpecModel

/-- Modelled from the spec: the Deployment Tracker lifecycle states (§4.4). -/
inductive DState where
  | pending
  | deployed
  | stopping
  | stopped
  | removing
  | removed
  | failed
deriving DecidableEq

/-- Modelled from the spec: a `DeploymentRecord` as far as quota accounting
needs it — project name, attached-container count, lifecycle state (§3). -/
structure DeploymentRec where
  project : String
  containers : Nat
  state : DState
deriving DecidableEq

/-- Modelled from the spec: the quota fields of a `TenantRecord` the Quota
Enforcer reads (§3). -/
structure Quotas where
  max_deployments : Nat
  max_containers : Nat
deriving DecidableEq

/-- Modelled from the spec: the live deployments of the tracker for a tenant —
`Removed` records have been torn down (container list cleared, record
purgeable, §4.4) and no longer count toward usage. -/
def liveDeployments (ds : List DeploymentRec) : List DeploymentRec :=
  ds.filter (fun d => ¬ d.state = DState.removed)

/-- Modelled from the spec: current deployment count (§4.3). -/
def usageDeployments (ds : List DeploymentRec) : Nat :=
  (liveDeployments ds).length

/-- Modelled from the spec: current total container count (§4.3). -/
def usageContainers (ds : List DeploymentRec) : Nat :=
  ((liveDeployments ds).map (fun d => d.containers)).sum

/-- Modelled from the spec: `checkAndReserve` admits a new deployment needing
`requested` containers exactly when the new deployment count and the new total
container count both stay within the tenant limits (§4.3). -/
def checkAndReserve (q : Quotas) (ds : List DeploymentRec) (requested : Nat) : Bool :=
  usageDeployments ds + 1 ≤ q.max_deployments ∧
    usageContainers ds + requested ≤ q.max_containers

/-- Modelled from the spec: the `QuotaExceededError` of §4.3/§7. -/
inductive QuotaError where
  | quotaExceeded
deriving DecidableEq

/-- Modelled from the spec: `deploy` with an always-succeeding runtime —
reserve quota (or fail with `QuotaExceededError`), create the record, runtime
confirms, record lands in `Deployed` with its containers attached (§4.4). -/
def deploy (q : Quotas) (ds : List DeploymentRec) (project : String)
    (requested : Nat) : Except QuotaError (List DeploymentRec) :=
  if checkAndReserve q ds requested then
    .ok (ds ++ [{ project := project, containers := requested, state := .deployed }])
  else
    .error .quotaExceeded

/-- Modelled from the spec: `remove` — teardown confirmed, container list
cleared, record left in `Removed` (§4.4). -/
def remove (project : String) (ds : List DeploymentRec) : List DeploymentRec :=
  ds.map (fun d =>
    if d.project = project then { d with state := .removed, containers := 0 } else d)

end SpecModel

/-! ### Helper lemmas on the embedded dictionaries, kwargs and containers -/

theorem dict_get_insert_self (m : List (String × β)) (k : String) (v : β) :
    dict_get (dict_insert m k v) k = some v := by
  induction m with
  | nil => simp [dict_insert, dict_get]
  | cons p rest ih =>
    by_cases h : p.1 = k
    · simp [dict_insert, dict_get, h]
    · simp [dict_insert, dict_get, h, ih]

theorem dict_insert_append (m : List (String × β)) (k : String) (v : β)
    (h : ∀ p ∈ m, p.1 ≠ k) : dict_insert m k v = m ++ [(k, v)] := by
  induction m with
  | nil => rfl
  | cons p rest ih =>
    have hp : p.1 ≠ k := h p (List.mem_cons_self p rest)
    simp [dict_insert, hp, ih (fun q hq => h q (List.mem_cons_of_mem p hq))]

theorem foldl_dict_insert_nodup (ps : List (String × β)) :
    ∀ acc : List (String × β), (((acc ++ ps).map Prod.fst).Nodup) →
      ps.foldl (fun m p => dict_insert m p.1 p.2) acc = acc ++ ps := by
  induction ps with
  | nil => intro acc _; simp
  | cons p rest ih =>
    intro acc h
    rw [List.map_append] at h
    rcases List.nodup_append.mp h with ⟨h1, h2, hd⟩
    have hne : ∀ q ∈ acc, q.1 ≠ p.1 := by
      intro q hq he
      exact hd (List.mem_map_of_mem Prod.fst hq)
        (by rw [he]; exact List.mem_cons_self _ _)
    have hstep : dict_insert acc p.1 p.2 = acc ++ [p] := by
      simpa using dict_insert_append acc p.1 p.2 hne
    have h' : (((acc ++ [p]) ++ rest).map Prod.fst).Nodup := by
      rw [List.append_assoc]
      simpa [List.map_append] using h
    calc (p :: rest).foldl (fun m q => dict_insert m q.1 q.2) acc
        = rest.foldl (fun m q => dict_insert m q.1 q.2) (acc ++ [p]) := by
          rw [List.foldl_cons, hstep]
      _ = (acc ++ [p]) ++ rest := ih (acc ++ [p]) h'
      _ = acc ++ p :: rest := by rw [List.append_assoc]; rfl

theorem dict_of_pairs_eq_self (ps : List (String × β))
    (h : (ps.map Prod.fst).Nodup) : dict_of_pairs ps = ps := by
  simpa [dict_of_pairs] using foldl_dict_insert_nodup ps [] (by simpa using h)

theorem stop_deployment_eq (p : String) (s : List Container) :
    stop_deployment p s = (s.map (stopMatching p), true) := rfl

theorem remove_deployment_eq (p : String) (s : List Container) :
    remove_deployment p s =
      ((s.map (stopMatching p)).filter (fun c => ¬ c.project = p), true) := rfl

theorem stopMatching_project (p : String) (c : Container) :
    (stopMatching p c).project = c.project := by
  unfold stopMatching; split <;> rfl

theorem stopMatching_idem (p : String) (c : Container) :
    stopMatching p (stopMatching p c) = stopMatching p c := by
  by_cases h : c.project = p ∧ c.running
  · simp [stopMatching, h]
  · simp [stopMatching, h]

theorem stopMatching_of_ne (p : String) (c : Container) (h : ¬ c.project = p) :
    stopMatching p c = c := by
  simp [stopMatching, h]

theorem map_stopMatching_of_ne (p : String) (s : List Container)
    (h : ∀ c ∈ s, ¬ c.project = p) : s.map (stopMatching p) = s := by
  induction s with
  | nil => rfl
  | cons a rest ih =>
    simp [stopMatching_of_ne p a (h a (List.mem_cons_self a rest)),
      ih (fun c hc => h c (List.mem_cons_of_mem a hc))]

theorem setAttr_created_at (t : Tenant) (k : KwArg)
    (h : KwArg.setsCreatedAt k = false) : (setAttr t k).created_at = t.created_at := by
  cases k <;> simp_all [setAttr, KwArg.setsCreatedAt]

theorem foldl_setAttr_created_at (ks : List KwArg) :
    ∀ t : Tenant, (∀ k ∈ ks, KwArg.setsCreatedAt k = false) →
      (ks.foldl setAttr t).created_at = t.created_at := by
  induction ks with
  | nil => intro t _; rfl
  | cons a rest ih =>
    intro t h
    rw [List.foldl_cons, ih (setAttr t a) (fun k hk => h k (List.mem_cons_of_mem a hk)),
      setAttr_created_at t a (h a (List.mem_cons_self a rest))]

theorem setAttr_updated_at (t : Tenant) (k : KwArg)
    (h : KwArg.setsUpdatedAt k = false) : (setAttr t k).updated_at = t.updated_at := by
  cases k <;> simp_all [setAttr, KwArg.setsUpdatedAt]

theorem foldl_setAttr_updated_at (ks : List KwArg) :
    ∀ t : Tenant, (∀ k ∈ ks, KwArg.setsUpdatedAt k = false) →
      (ks.foldl setAttr t).updated_at = t.updated_at := by
  induction ks with
  | nil => intro t _; rfl
  | cons a rest ih =>
    intro t h
    rw [List.foldl_cons, ih (setAttr t a) (fun k hk => h k (List.mem_cons_of_mem a hk)),
      setAttr_updated_at t a (h a (List.mem_cons_self a rest))]

theorem setAttr_unknown (t : Tenant) (k : KwArg)
    (h : KwArg.isUnknownKey k = true) : setAttr t k = t := by
  cases k <;> simp_all [setAttr, KwArg.isUnknownKey]

theorem foldl_setAttr_unknown (ks : List KwArg) :
    ∀ t : Tenant, (∀ k ∈ ks, KwArg.isUnknownKey k = true) →
      ks.foldl setAttr t = t := by
  induction ks with
  | nil => intro t _; rfl
  | cons a rest ih =>
    intro t h
    rw [List.foldl_cons, setAttr_unknown t a (h a (List.mem_cons_self a rest)),
      ih t (fun k hk => h k (List.mem_cons_of_mem a hk))]

/-! ### Claim theorems -/

/-- C1: in the spec-modelled quota enforcer, a tenant with `max_deployments=1`
and `max_containers=2` can deploy `acme_app1` needing 2 containers (landing in
`Deployed`); a subsequent deploy of `acme_app2` needing 1 container fails with
`QuotaExceededError` while `acme_app1` exists; after removing `acme_app1`
(its record left `Removed`), retrying `acme_app2` succeeds in `Deployed`. -/
theorem C1_quota_scenario :
    SpecModel.deploy ⟨1, 2⟩ [] "acme_app1" 2 =
      Except.ok [⟨"acme_app1", 2, SpecModel.DState.deployed⟩] ∧
    SpecModel.deploy ⟨1, 2⟩ [⟨"acme_app1", 2, SpecModel.DState.deployed⟩]
        "acme_app2" 1 =
      Except.error SpecModel.QuotaError.quotaExceeded ∧
    SpecModel.remove "acme_app1" [⟨"acme_app1", 2, SpecModel.DState.deployed⟩] =
      [⟨"acme_app1", 0, SpecModel.DState.removed⟩] ∧
    SpecModel.deploy ⟨1, 2⟩ [⟨"acme_app1", 0, SpecModel.DState.removed⟩]
        "acme_app2" 1 =
      Except.ok [⟨"acme_app1", 0, SpecModel.DState.removed⟩,
        ⟨"acme_app2", 1, SpecModel.DState.deployed⟩] :=
  ⟨rfl, rfl, rfl, rfl⟩

/-- C2 counterexample: a manifest with version 3 whose services section is
present but empty is accepted by `validate_compose_file`, not rejected with
the missing-services error as the claim states. -/
theorem C2_counterexample_empty_services :
    validate_compose_file { version := some "3", services := some [] } = Except.ok true ∧
    ¬ validate_compose_file { version := some "3", services := some [] } =
        Except.error ValidationError.missingServices := by
  constructor
  · rfl
  · intro h
    exact Except.noConfusion h

/-- C2 amended: `validate_compose_file` succeeds exactly when the version
(defaulting to 3) starts with 3 and the services key is present — emptiness of
the services section is not checked; it fails with the missing-services error
exactly when the version is acceptable but the services key is absent, and
with the unsupported-version error exactly when the version does not start
with 3. -/
theorem C2_validator_classification (d : ComposeData) :
    (validate_compose_file d = Except.ok true ↔
      (pyStartsWith (d.version.getD "3") "3" = true ∧ d.services ≠ none)) ∧
    (validate_compose_file d = Except.error ValidationError.missingServices ↔
      (pyStartsWith (d.version.getD "3") "3" = true ∧ d.services = none)) ∧
    (validate_compose_file d =
        Except.error (ValidationError.unsupportedVersion (d.version.getD "3")) ↔
      pyStartsWith (d.version.getD "3") "3" = false) := by
  by_cases h1 : pyStartsWith (d.version.getD "3") "3" = true
  · by_cases h2 : d.services = none
    · simp [validate_compose_file, h1, h2]
    · simp [validate_compose_file, h1, h2]
  · simp [validate_compose_file, h1]

/-- C9: a manifest that parses to a mapping with a non-empty services section
and no version key is accepted — the version defaults to 3 and validation
returns success. -/
theorem C9_missing_version_defaults_to_v3 (l : List String) (_h : l ≠ []) :
    validate_compose_file { version := none, services := some l } = Except.ok true := by
  simp [validate_compose_file, pyStartsWith]

/-- C9 witness: the concrete manifest with one service and no version key is
accepted. -/
theorem C9_missing_version_defaults_to_v3_witness :
    validate_compose_file { version := none, services := some ["web"] } =
      Except.ok true :=
  C9_missing_version_defaults_to_v3 ["web"] (by decide)

/-- C3 counterexample: `health_check_all` on the duplicate input list
[a, a] returns a single-entry dict — not one entry per input element. -/
theorem C3_counterexample_duplicate_names :
    health_check_all ["a", "a"] = [("a", true)] ∧
    ¬ (health_check_all ["a", "a"]).length = ["a", "a"].length := by
  exact ⟨rfl, by decide⟩

/-- C3 amended: a gather with `return_exceptions=True` yields exactly one
entry per input unit (a raising unit contributes its error as its own entry,
never aborting siblings); `deploy_multiple` returns, in input order, one
success payload per spec carrying the project name of that spec; and
`health_check_all` returns a dict whose keys are exactly the input project
names — a bijection with the input — provided the input names are distinct
(duplicate names collapse into one entry). -/
theorem C3_batch_result_shape :
    (∀ (α ε β : Type) (w : α → Except ε β) (xs : List α),
      (gather_return_exceptions w xs).length = xs.length) ∧
    (∀ ds : List DeploySpec,
      (deploy_multiple ds).map (fun r => r.map (fun p => p.project_name)) =
        ds.map (fun d => Except.ok d.project_name)) ∧
    (∀ names : List String, names.Nodup →
      (health_check_all names).map Prod.fst = names) := by
  refine ⟨?_, ?_, ?_⟩
  · intro α ε β w xs
    simp [gather_return_exceptions]
  · intro ds
    simp [deploy_multiple, gather_return_exceptions, deploy_single, Except.map]
  · intro names hnd
    have hlen : names.length ≤ (names.map health_check_single).length := by
      simp
    have hkeys : ((names.zip (names.map health_check_single)).map Prod.fst) = names :=
      List.map_fst_zip names (names.map health_check_single) hlen
    have hnodup : ((names.zip (names.map health_check_single)).map Prod.fst).Nodup := by
      rw [hkeys]; exact hnd
    rw [health_check_all, dict_of_pairs_eq_self _ hnodup, hkeys]

/-- C3 witness: at a concrete two-element batch with distinct names, both the
per-spec results and the health dict are in bijection with the inputs. -/
theorem C3_batch_result_shape_witness :
    (deploy_multiple [{ project_name := some "a" }, { project_name := none }]).map
        (fun r => r.map (fun p => p.project_name)) =
      [Except.ok (some "a"), Except.ok none] ∧
    (health_check_all ["a", "b"]).map Prod.fst = ["a", "b"] :=
  ⟨C3_batch_result_shape.2.1 [{ project_name := some "a" }, { project_name := none }],
    C3_batch_result_shape.2.2 ["a", "b"] (by decide)⟩

/-- C5: `stop_deployment` and `remove_deployment` are idempotent — the second
call returns success and leaves the state of the first call unchanged — both
always return `True`, and the absence of any container for the project makes
both calls no-op successes. -/
theorem C5_teardown_idempotent (p : String) (s : List Container) :
    stop_deployment p (stop_deployment p s).1 = stop_deployment p s ∧
    remove_deployment p (remove_deployment p s).1 = remove_deployment p s ∧
    (stop_deployment p s).2 = true ∧
    (remove_deployment p s).2 = true ∧
    ((∀ c ∈ s, ¬ c.project = p) →
      stop_deployment p s = (s, true) ∧ remove_deployment p s = (s, true)) := by
  refine ⟨?_, ?_, rfl, rfl, ?_⟩
  · show ((s.map (stopMatching p)).map (stopMatching p), true) =
      (s.map (stopMatching p), true)
    rw [List.map_map]
    exact congrArg (fun l => (l, true))
      (List.map_congr_left (fun c _ => stopMatching_idem p c))
  · have hmem : ∀ c ∈ (remove_deployment p s).1, ¬ c.project = p := by
      intro c hc
      simp [remove_deployment_eq] at hc
      exact hc.2
    show (((remove_deployment p s).1.map (stopMatching p)).filter
        (fun c => ¬ c.project = p), true) = remove_deployment p s
    rw [map_stopMatching_of_ne p _ hmem,
      List.filter_eq_self.mpr (fun c hc => by simpa using hmem c hc),
      remove_deployment_eq]
  · intro h
    have hstop : stop_deployment p s = (s, true) := by
      rw [stop_deployment_eq, map_stopMatching_of_ne p s h]
    refine ⟨hstop, ?_⟩
    rw [remove_deployment_eq, map_stopMatching_of_ne p s h,
      List.filter_eq_self.mpr (fun c hc => by simpa using h c hc)]

/-- C5 witness: at a concrete project and a one-container state for another
project, teardown is idempotent, returns `True`, and absence is a no-op. -/
theorem C5_teardown_idempotent_witness :
    stop_deployment "a" [⟨1, "b", true⟩] = ([⟨1, "b", true⟩], true) ∧
    remove_deployment "a" [⟨1, "b", true⟩] = ([⟨1, "b", true⟩], true) :=
  (C5_teardown_idempotent "a" [⟨1, "b", true⟩]).2.2.2.2 (by decide)

/-- C6: a tenant written by a successful `create_tenant` is returned
field-for-field equal (timestamps included) by a subsequent `get_tenant` with
the same slug. -/
theorem C6_create_get_roundtrip (st : TenantManagerState) (now : Nat)
    (fresh_id name slug description : String) (kwargs : List KwArg)
    (st' : TenantManagerState) (t : Tenant)
    (h : create_tenant st now fresh_id name slug description kwargs =
      (st', Except.ok t)) :
    get_tenant st' slug = some t := by
  by_cases hdup : (dict_get st.tenants slug).isSome
  · simp [create_tenant, hdup] at h
  · simp [create_tenant, hdup] at h
    obtain ⟨h1, h2⟩ := h
    subst h2
    rw [← h1]
    simp [get_tenant, dict_get_insert_self]

/-- C6 witness: creating the tenant beta at time 3 in the sample registry and
reading it back returns exactly the created record. -/
theorem C6_create_get_roundtrip_witness :
    get_tenant (create_tenant sampleState 3 "id-2" "Beta" "beta" "" []).1 "beta" =
      some (Tenant.mkDefault "id-2" 3 "Beta" "beta" "") :=
  C6_create_get_roundtrip sampleState 3 "id-2" "Beta" "beta" "" []
    (create_tenant sampleState 3 "id-2" "Beta" "beta" "" []).1
    (Tenant.mkDefault "id-2" 3 "Beta" "beta" "") rfl

/-- C7: `create_tenant` fails with the duplicate-tenant error exactly when the
requested slug is already registered, and on that failure the whole state —
in-memory map and persisted store — is returned unchanged. -/
theorem C7_duplicate_create (st : TenantManagerState) (now : Nat)
    (fresh_id name slug description : String) (kwargs : List KwArg) :
    ((create_tenant st now fresh_id name slug description kwargs).2 =
        Except.error TenantError.duplicateTenant ↔
      (dict_get st.tenants slug).isSome = true) ∧
    ((dict_get st.tenants slug).isSome = true →
      create_tenant st now fresh_id name slug description kwargs =
        (st, Except.error TenantError.duplicateTenant)) := by
  by_cases hdup : (dict_get st.tenants slug).isSome
  · simp [create_tenant, hdup]
  · simp [create_tenant, hdup]

/-- C7 witness: creating acme again in the sample registry fails with the
duplicate-tenant error and leaves the state untouched. -/
theorem C7_duplicate_create_witness :
    create_tenant sampleState 1 "id-2" "Other" "acme" "" [] =
      (sampleState, Except.error TenantError.duplicateTenant) :=
  (C7_duplicate_create sampleState 1 "id-2" "Other" "acme" "" []).2 rfl

/-- C4 counterexample: the call `update_tenant("acme", id="evil")` is a
well-formed Python call (`id` is not a parameter name, so the key reaches the
kwargs dict), passes the `hasattr` check, and changes the stored `id` of the
sample tenant to evil — the identity field is mutated, neither silently
ignored nor rejected. -/
theorem C4_counterexample_id_mutation :
    sampleTenant.id = "id-1" ∧
    (update_tenant sampleState 5 "acme" [KwArg.id "evil"]).2.map Tenant.id =
      some "evil" ∧
    (get_tenant (update_tenant sampleState 5 "acme" [KwArg.id "evil"]).1 "acme").map
        Tenant.id = some "evil" ∧
    ¬ ("evil" : String) = "id-1" :=
  ⟨rfl, rfl, rfl, by decide⟩

/-- C4 amended: a slug keyword can never reach the kwargs of `update_tenant`
(it collides with the named slug parameter, so the call itself raises a
TypeError before the body runs), but `id` is no parameter name: an update
with an id kwarg passes the `hasattr` check and succeeds, changing the
identity of the returned record and of the record stored under the lookup
slug, rather than being ignored or rejected. -/
theorem C4_identity_fields_mutable (st : TenantManagerState) (now : Nat)
    (slug v : String) (t : Tenant) (h : dict_get st.tenants slug = some t) :
    (update_tenant st now slug [KwArg.id v]).2 =
      some { t with id := v, updated_at := now } ∧
    get_tenant (update_tenant st now slug [KwArg.id v]).1 slug =
      some { t with id := v, updated_at := now } := by
  constructor
  · simp [update_tenant, h, setAttr]
  · simp [update_tenant, get_tenant, h, setAttr, dict_get_insert_self]

/-- C4 witness: at the sample registry, updating the id of acme to evil
returns the record with id evil. -/
theorem C4_identity_fields_mutable_witness :
    (update_tenant sampleState 5 "acme" [KwArg.id "evil"]).2 =
      some { sampleTenant with id := "evil", updated_at := 5 } :=
  (C4_identity_fields_mutable sampleState 5 "acme" "evil" sampleTenant rfl).1

/-- C10: on an existing tenant, `update_tenant` with kwargs none of which
names a `Tenant` attribute returns the record (not `None`) with every field
unchanged except `updated_at`, which is set to the current time; unknown keys
are silently dropped. -/
theorem C10_unknown_kwargs_dropped (st : TenantManagerState) (now : Nat)
    (slug : String) (t : Tenant) (ks : List KwArg)
    (h : dict_get st.tenants slug = some t)
    (hu : ∀ k ∈ ks, KwArg.isUnknownKey k = true) :
    (update_tenant st now slug ks).2 = some { t with updated_at := now } := by
  simp [update_tenant, h, foldl_setAttr_unknown ks t hu]

/-- C10 witness: updating acme with one unknown key returns the sample record
with only `updated_at` changed. -/
theorem C10_unknown_kwargs_dropped_witness :
    (update_tenant sampleState 7 "acme" [KwArg.unknown "frobnicate"]).2 =
      some { sampleTenant with updated_at := 7 } :=
  C10_unknown_kwargs_dropped sampleState 7 "acme" sampleTenant
    [KwArg.unknown "frobnicate"] rfl (by decide)

/-- C8 counterexample: `Tenant.from_dict` copies stored timestamps verbatim —
a stored dict with `created_at = 5` and `updated_at = 3` loads into a record
with `updated_at < created_at`, violating the claimed invariant. -/
theorem C8_counterexample_from_dict :
    (Tenant.from_dict "id-9" 0 [KwArg.created_at 5, KwArg.updated_at 3]).updated_at <
      (Tenant.from_dict "id-9" 0 [KwArg.created_at 5, KwArg.updated_at 3]).created_at := by
  decide

/-- C8 amended: a record built by `create_tenant` whose kwargs set neither
timestamp has `updated_at = created_at`; a record returned by `update_tenant`
satisfies `created_at ≤ updated_at` provided the kwargs do not set
`created_at` and the clock is monotone (`created_at ≤ now`); `from_dict`
(and timestamp-setting kwargs) do not enforce the invariant. -/
theorem C8_timestamp_invariant :
    (∀ (st st' : TenantManagerState) (now : Nat)
      (fresh_id name slug description : String) (ks : List KwArg) (t : Tenant),
      (∀ k ∈ ks, KwArg.setsCreatedAt k = false ∧ KwArg.setsUpdatedAt k = false) →
      create_tenant st now fresh_id name slug description ks = (st', Except.ok t) →
      t.updated_at = t.created_at) ∧
    (∀ (st : TenantManagerState) (now : Nat) (slug : String) (ks : List KwArg)
      (t u : Tenant),
      dict_get st.tenants slug = some t →
      (∀ k ∈ ks, KwArg.setsCreatedAt k = false) →
      t.created_at ≤ now →
      (update_tenant st now slug ks).2 = some u →
      u.created_at ≤ u.updated_at) := by
  constructor
  · intro st st' now fresh_id name slug description ks t hks h
    by_cases hdup : (dict_get st.tenants slug).isSome
    · simp [create_tenant, hdup] at h
    · simp [create_tenant, hdup] at h
      obtain ⟨h1, h2⟩ := h
      subst h2
      rw [foldl_setAttr_updated_at ks _ (fun k hk => (hks k hk).2),
        foldl_setAttr_created_at ks _ (fun k hk => (hks k hk).1)]
      rfl
  · intro st now slug ks t u hget hks hle hu
    simp [update_tenant, hget] at hu
    subst hu
    simpa [foldl_setAttr_created_at ks t hks] using hle

/-- C8 witness: at the sample registry, a fresh creation has equal timestamps
and an update at a later time keeps `created_at ≤ updated_at`. -/
theorem C8_timestamp_invariant_witness :
    (Tenant.mkDefault "id-2" 3 "Beta" "beta" "").updated_at =
      (Tenant.mkDefault "id-2" 3 "Beta" "beta" "").created_at ∧
    ({ sampleTenant with updated_at := 9 } : Tenant).created_at ≤
      ({ sampleTenant with updated_at := 9 } : Tenant).updated_at :=
  ⟨C8_timestamp_invariant.1 sampleState
      (create_tenant sampleState 3 "id-2" "Beta" "beta" "" []).1 3
      "id-2" "Beta" "beta" "" [] (Tenant.mkDefault "id-2" 3 "Beta" "beta" "")
      (by decide) rfl,
    C8_timestamp_invariant.2 sampleState 9 "acme" [] sampleTenant
      { sampleTenant with updated_at := 9 } rfl (by decide) (by decide) rfl⟩

end DCM
